import Mathlib

/-!
# cozy-stack: JSON-API error envelope and document adapter

A shallow embedding of `web/jsonapi/errors.go` together with the fragments of
the Go standard library it calls (`strconv.Itoa`, `fmt.Sprint`,
`http.StatusText`, the struct-tag driven `encoding/json` encoder), followed by
a model of the document adapter exercised by `web/data/data_test.go` and by
the handler of `web/registry/registry.go`.

Conventions: a Go `int` is an `Int`; a Go `*Error` is the `Error` value it
points to; a Go `error` interface value is the record of what its `Error()`
method returns.
-/

set_option linter.dupNamespace false

/-! ## Standard library fragments -/

namespace strconv

/-- Decimal rendering of a Go `int` (`strconv.Itoa`): a leading minus sign for
negative numbers, then the decimal digits of the magnitude. -/
def Itoa (n : Int) : String :=
  if n < 0 then "-" ++ Nat.repr n.natAbs else Nat.repr n.toNat

end strconv

namespace http

def StatusOK : Int := 200
def StatusCreated : Int := 201
def StatusBadRequest : Int := 400
def StatusForbidden : Int := 403
def StatusNotFound : Int := 404
def StatusConflict : Int := 409
def StatusPreconditionFailed : Int := 412
def StatusUnprocessableEntity : Int := 422
def StatusInternalServerError : Int := 500

/-- Reason phrases of `net/http` (`http.StatusText`): the registered phrase of a
known status code, the empty string for every other integer. -/
def StatusText (code : Int) : String :=
  if code = 100 then "Continue"
  else if code = 101 then "Switching Protocols"
  else if code = 102 then "Processing"
  else if code = 103 then "Early Hints"
  else if code = 200 then "OK"
  else if code = 201 then "Created"
  else if code = 202 then "Accepted"
  else if code = 203 then "Non-Authoritative Information"
  else if code = 204 then "No Content"
  else if code = 205 then "Reset Content"
  else if code = 206 then "Partial Content"
  else if code = 207 then "Multi-Status"
  else if code = 208 then "Already Reported"
  else if code = 226 then "IM Used"
  else if code = 300 then "Multiple Choices"
  else if code = 301 then "Moved Permanently"
  else if code = 302 then "Found"
  else if code = 303 then "See Other"
  else if code = 304 then "Not Modified"
  else if code = 305 then "Use Proxy"
  else if code = 307 then "Temporary Redirect"
  else if code = 308 then "Permanent Redirect"
  else if code = 400 then "Bad Request"
  else if code = 401 then "Unauthorized"
  else if code = 402 then "Payment Required"
  else if code = 403 then "Forbidden"
  else if code = 404 then "Not Found"
  else if code = 405 then "Method Not Allowed"
  else if code = 406 then "Not Acceptable"
  else if code = 407 then "Proxy Authentication Required"
  else if code = 408 then "Request Timeout"
  else if code = 409 then "Conflict"
  else if code = 410 then "Gone"
  else if code = 411 then "Length Required"
  else if code = 412 then "Precondition Failed"
  else if code = 413 then "Request Entity Too Large"
  else if code = 414 then "Request URI Too Long"
  else if code = 415 then "Unsupported Media Type"
  else if code = 416 then "Requested Range Not Satisfiable"
  else if code = 417 then "Expectation Failed"
  else if code = 418 then "I\x27m a teapot"
  else if code = 421 then "Misdirected Request"
  else if code = 422 then "Unprocessable Entity"
  else if code = 423 then "Locked"
  else if code = 424 then "Failed Dependency"
  else if code = 425 then "Too Early"
  else if code = 426 then "Upgrade Required"
  else if code = 428 then "Precondition Required"
  else if code = 429 then "Too Many Requests"
  else if code = 431 then "Request Header Fields Too Large"
  else if code = 451 then "Unavailable For Legal Reasons"
  else if code = 500 then "Internal Server Error"
  else if code = 501 then "Not Implemented"
  else if code = 502 then "Bad Gateway"
  else if code = 503 then "Service Unavailable"
  else if code = 504 then "Gateway Timeout"
  else if code = 505 then "HTTP Version Not Supported"
  else if code = 506 then "Variant Also Negotiates"
  else if code = 507 then "Insufficient Storage"
  else if code = 508 then "Loop Detected"
  else if code = 510 then "Not Extended"
  else if code = 511 then "Network Authentication Required"
  else ""

end http

/-- A Go `error` interface value, observed through its `Error()` method. -/
structure GoError where
  Error : String
  deriving DecidableEq, Repr

namespace fmt

/-- Operands of a variadic `...interface{}` call, as `fmt.Sprint` observes
them: the untyped `nil`; values of the predeclared types `string`, `int` and
`bool`; an error, with whether its dynamic type is of kind `reflect.String`
(as for `type strErr string`); and a value of any other dynamic type (a
float, a struct, a `Stringer`, a named string type), given by whether its
kind is `reflect.String` and by what `%v` writes for it. -/
inductive Operand where
  | nil
  | str (s : String)
  | int (n : Int)
  | bool (b : Bool)
  | err (e : GoError) (stringKind : Bool)
  | other (stringKind : Bool) (rendering : String)
  deriving DecidableEq, Repr

/-- Test of `doPrint`, `arg != nil && reflect.TypeOf(arg).Kind() ==
reflect.String`: it looks at the kind of the dynamic type, whatever methods
the type has. -/
def Operand.isString : Operand → Bool
  | .nil => false
  | .str _ => true
  | .int _ => false
  | .bool _ => false
  | .err _ stringKind => stringKind
  | .other stringKind _ => stringKind

/-- Default (`%v`) format of one operand: `<nil>` for `nil`, the string
itself, the decimal integer, `true` or `false`, the result of `Error()` for
an error. -/
def Operand.format : Operand → String
  | .nil => "<nil>"
  | .str s => s
  | .int n => strconv.Itoa n
  | .bool b => if b then "true" else "false"
  | .err e _ => e.Error
  | .other _ rendering => rendering

/-- Loop of `fmt.Sprint` from the second operand on: `prevString` records
whether the operand just printed was a string; a space is written between two
operands when neither is a string. -/
def doPrint (prevString : Bool) : List Operand → String
  | [] => ""
  | a :: rest =>
    (if !a.isString && !prevString then " " else "") ++ a.format
      ++ doPrint a.isString rest

/-- Go's `fmt.Sprint`: the default formats of the operands, concatenated, with
a space between two adjacent operands when neither is a string. -/
def Sprint : List Operand → String
  | [] => ""
  | a :: rest => a.format ++ doPrint a.isString rest

end fmt

namespace json

/-- JSON documents as produced by `encoding/json`: the tree the encoder
writes, before byte-level escaping of string contents. -/
inductive Value where
  | null
  | bool (b : Bool)
  | number (n : Int)
  | string (s : String)
  | array (items : List Value)
  | object (members : List (String × Value))

/-- Members of an object, in encoding order; any other value has none. -/
def Value.members : Value → List (String × Value)
  | .object ms => ms
  | _ => []

/-- Value of the first member called `key`, if the value is an object that
has one. -/
def Value.member (v : Value) (key : String) : Option Value :=
  (v.members.find? (fun kv => kv.1 == key)).map Prod.snd

/-- Whether the value is a JSON number. -/
def Value.isNumber : Value → Bool
  | .number _ => true
  | _ => false

end json

/-! ## `web/jsonapi/errors.go` -/

namespace jsonapi

/-- References to the source of an error (`SourceError`). -/
structure SourceError where
  Pointer : String := ""
  Parameter : String := ""
  deriving DecidableEq, Repr

/-- JSON-API error object (`Error`); omitted fields of a Go composite literal
take their zero value. -/
structure Error where
  Status : Int := 0
  Title : String := ""
  Detail : String := ""
  Source : SourceError := {}
  deriving DecidableEq, Repr

/-- List of error objects (`ErrorList`). -/
abbrev ErrorList := List Error

/-- Method `(*Error).Error`. -/
def Error.Error (e : jsonapi.Error) : String :=
  e.Title ++ "(" ++ strconv.Itoa e.Status ++ ")" ++ ": " ++ e.Detail

/-- Generic constructor `NewError(status, msg...)`. -/
def NewError (status : Int) (msg : List fmt.Operand) : Error :=
  let je : Error := { Status := status, Title := http.StatusText status }
  if msg.length > 0 then { je with Detail := fmt.Sprint msg } else je

def NotFound (err : GoError) : Error :=
  { Status := http.StatusNotFound, Title := "Not Found", Detail := err.Error }

def BadRequest (err : GoError) : Error :=
  { Status := http.StatusBadRequest, Title := "Bad request", Detail := err.Error }

def BadJSON : Error :=
  { Status := http.StatusBadRequest,
    Title := "Bad request",
    Detail := "JSON input is malformed or is missing mandatory fields" }

def Conflict (err : GoError) : Error :=
  { Status := http.StatusConflict, Title := "Conflict", Detail := err.Error }

def InternalServerError (err : GoError) : Error :=
  { Status := http.StatusInternalServerError,
    Title := "Internal Server Error",
    Detail := err.Error }

def PreconditionFailed (parameter : String) (err : GoError) : Error :=
  { Status := http.StatusPreconditionFailed,
    Title := "Precondition Failed",
    Detail := err.Error,
    Source := { Parameter := parameter } }

def InvalidParameter (parameter : String) (err : GoError) : Error :=
  { Status := http.StatusUnprocessableEntity,
    Title := "Invalid Parameter",
    Detail := err.Error,
    Source := { Parameter := parameter } }

def InvalidAttribute (attributeName : String) (err : GoError) : Error :=
  { Status := http.StatusUnprocessableEntity,
    Title := "Invalid Attribute",
    Detail := err.Error,
    Source := { Pointer := "/data/attributes/" ++ attributeName } }

/-- Encoding of a `SourceError` under its struct tags: `pointer` and
`parameter` are strings tagged `omitempty`, so each is written only when it
is not the empty string. -/
def SourceError.MarshalJSON (s : SourceError) : json.Value :=
  .object
    ((if s.Pointer = "" then [] else [("pointer", json.Value.string s.Pointer)])
      ++ (if s.Parameter = "" then [] else [("parameter", json.Value.string s.Parameter)]))

/-- Encoding of an `Error` under its struct tags. `status` carries the
`string` option, which makes the encoder write the integer inside a JSON
string; `title` and `detail` are plain strings; `source` is a struct value,
and `omitempty` only drops false, 0, nil pointers and interfaces and empty
arrays, slices, maps and strings, so a struct-valued field is always
written. -/
def Error.MarshalJSON (e : jsonapi.Error) : json.Value :=
  .object
    [("status", .string (strconv.Itoa e.Status)),
     ("title", .string e.Title),
     ("detail", .string e.Detail),
     ("source", e.Source.MarshalJSON)]

end jsonapi

/-! ## Document adapter (`web/data`)

The handlers of `web/data` are exercised by `data_test.go` through HTTP; the
model below follows their written contract. The document store is a finite
map from `(type, id)` to the stored revision and fields, and every handler
returns the store it leaves behind together with its reply.
-/

namespace data

/-- Modelled from the spec: the revision token of a document (§3), store
assigned and advancing on every mutation. The token is abstracted to the
store's counter; only equality of tokens and the advance are observed. -/
abbrev Revision := Nat

/-- Modelled from the spec: the field mapping of a document (§3), field names
to JSON-compatible values. -/
abbrev Fields := List (String × json.Value)

/-- Modelled from the spec: what the store keeps for one `(type, id)` (§3): the
current revision and the fields. -/
structure StoredDoc where
  rev : Revision
  fields : Fields

/-- Modelled from the spec: the external revisioned document store (§1, §3),
as a map from document type and id to the stored document. -/
abbrev Store := String → String → Option StoredDoc

/-- Modelled from the spec: a store write (§3): the entry of `(doctype, id)`
is replaced, `none` removing it; every other entry is kept. -/
def Store.set (s : Store) (doctype id : String) (d : Option StoredDoc) : Store :=
  fun t i => if t = doctype ∧ i = id then d else s t i

/-- Modelled from the spec: the revision the store assigns to a new
document (§3). -/
def firstRev : Revision := 1

/-- Modelled from the spec: the revision the store assigns after a successful
mutation of a document at revision `r` (§3: it changes on every successful
mutation and advances monotonically). -/
def nextRev (r : Revision) : Revision := r + 1

/-- Modelled from the spec: a full document as embedded in replies (§3, §6):
identity, revision and fields. -/
structure Document where
  doctype : String
  id : String
  rev : Revision
  fields : Fields

/-- Modelled from the spec: the parsed JSON object of a request body (§6),
with its `_id` and `_rev` members set apart from the other fields. -/
structure Body where
  id : Option String := none
  rev : Option Revision := none
  fields : Fields := []

/-- Modelled from the spec: the mutation envelope (§6), mirroring the test
type `stackUpdateResponse`: `id, rev, type, ok, deleted, data`. -/
structure Envelope where
  id : String
  rev : Revision
  doctype : String
  ok : Bool
  deleted : Bool
  data : Option Document

/-- Modelled from the spec: a successful reply (§4.4): HTTP status and
envelope. -/
structure Reply where
  code : Int
  body : Envelope

/-- Modelled from the spec: what a handler leaves behind (§3 ownership, §4.4):
the store after the request, and either the error object rendered to the
caller or the successful reply. -/
structure Outcome where
  store : Store
  reply : Except jsonapi.Error Reply

/-- Modelled from the spec: the HTTP status of a failed request, which is the
`status` field of the error object (§4.2); `none` when the request
succeeded. -/
def Outcome.errorStatus (o : Outcome) : Option Int :=
  match o.reply with
  | .error e => some e.Status
  | .ok _ => none

/-- Modelled from the spec: the detail of the error object of a failed
request (§4.2); `none` when the request succeeded. -/
def Outcome.errorDetail (o : Outcome) : Option String :=
  match o.reply with
  | .error e => some e.Detail
  | .ok _ => none

/-- Modelled from the spec: the revision returned by a successful request in
its envelope (§4.4); `none` when the request failed. -/
def Outcome.newRev (o : Outcome) : Option Revision :=
  match o.reply with
  | .error _ => none
  | .ok r => some r.body.rev

/-- Modelled from the spec: the HTTP status of a successful request (§4.4);
`none` when the request failed. -/
def Outcome.okStatus (o : Outcome) : Option Int :=
  match o.reply with
  | .error _ => none
  | .ok r => some r.code

/-- Modelled from the spec: `IsReserved(type)` of the Namespace Guard (§4.3,
§9): a lookup in the static table of reserved document types. The table is
the classification policy; the spec names the file-storage types as its
example and the test addresses `io.cozy.files`. -/
def IsReserved (reserved : List String) (doctype : String) : Bool :=
  reserved.contains doctype

/-- Modelled from the spec: the error of a reserved-type violation (§4.3): a
403 error whose detail says the type is reserved. -/
def reservedError : jsonapi.Error :=
  jsonapi.NewError http.StatusForbidden [.str "reserved document type"]

/-- Modelled from the spec: `Compare(expected, actual)` (§4.1): exact
equality of the two tokens. -/
def Compare (expected actual : Revision) : Bool :=
  expected == actual

/-- Modelled from the spec: `ExpectedRevision` (§4.1, §4.4 Delete, §9): the
expected revision is read from the two places a request may carry it, the
conditional header first; both present and disagreeing is an error, and so is
absence from both, each a 400. -/
def ExpectedRevision (header other : Option Revision) : Except jsonapi.Error Revision :=
  match header, other with
  | some h, some o =>
    if h = o then .ok h
    else .error (jsonapi.BadRequest ⟨"revisions of the request do not match"⟩)
  | some h, none => .ok h
  | none, some o => .ok o
  | none, none => .error (jsonapi.BadRequest ⟨"missing revision"⟩)

/-- Modelled from the spec: a failing path (§3 ownership, §7): the store is
left as it was and the error object is rendered to the caller. -/
def fail (s : Store) (e : jsonapi.Error) : Outcome :=
  { store := s, reply := .error e }

/-- Modelled from the spec: the reply of a successful write of `fields` at
revision `rev` (§4.4): the entry is stored and the envelope carries the id,
the new revision, the type and the full document. -/
def stored (s : Store) (code : Int) (doctype id : String) (rev : Revision)
    (fields : Fields) : Outcome :=
  { store := s.set doctype id (some { rev := rev, fields := fields }),
    reply := .ok
      { code := code,
        body :=
          { id := id, rev := rev, doctype := doctype, ok := true, deleted := false,
            data := some { doctype := doctype, id := id, rev := rev, fields := fields } } } }

/-- Modelled from the spec: Create, `POST /type/` (§4.4, §6). The Namespace
Guard runs first; a malformed body is a 400 `BadJSON`; a body that carries an
`_id` is a 400; otherwise the document is stored under the id `uuid` the
store assigns, at its first revision, and the reply is 201. No revision is
asked of a create (§4.1). An assigned id that is already taken breaks the
store's uniqueness invariant and is reported as an internal error (§7). -/
def createDoc (reserved : List String) (s : Store) (doctype uuid : String)
    (body : Option Body) : Outcome :=
  if IsReserved reserved doctype then fail s reservedError
  else
    match body with
    | none => fail s jsonapi.BadJSON
    | some b =>
      if b.id.isSome then
        fail s (jsonapi.BadRequest ⟨"the body of a create must not carry an id"⟩)
      else
        match s doctype uuid with
        | some _ => fail s (jsonapi.InternalServerError ⟨"assigned id is already taken"⟩)
        | none => stored s http.StatusCreated doctype uuid firstRev b.fields

/-- Modelled from the spec: `PUT /type/id` (§4.4, §6): create with a supplied
id or update, depending on existence. The Namespace Guard runs first; a
malformed body is a 400 `BadJSON`.

When no document exists under the id, the body's `_id`, if present, must
equal the route id (400 otherwise) and the document is created at its first
revision; the test `TestCreateDocWithAFixedID` expects 200.

When a document exists, the body must carry the route id (400 otherwise) and
a revision (400 `BadJSON`, missing mandatory field, otherwise); a conditional
header, if present, must agree with the body revision (400 otherwise, §9); a
revision that is not the current one is a 409 conflict; a matching one
stores the fields at the next revision and replies 200. -/
def updateDoc (reserved : List String) (s : Store) (doctype id : String)
    (ifMatch : Option Revision) (body : Option Body) : Outcome :=
  if IsReserved reserved doctype then fail s reservedError
  else
    match body with
    | none => fail s jsonapi.BadJSON
    | some b =>
      match s doctype id with
      | none =>
        if b.id.isSome && b.id != some id then
          fail s (jsonapi.BadRequest ⟨"document id does not match the route"⟩)
        else stored s http.StatusOK doctype id firstRev b.fields
      | some d =>
        if b.id != some id then
          fail s (jsonapi.BadRequest ⟨"document id does not match the route"⟩)
        else if b.rev.isNone then fail s jsonapi.BadJSON
        else
          match ExpectedRevision ifMatch b.rev with
          | .error e => fail s e
          | .ok expected =>
            if Compare expected d.rev then
              stored s http.StatusOK doctype id (nextRev d.rev) b.fields
            else fail s (jsonapi.Conflict ⟨"revision mismatch"⟩)

/-- Modelled from the spec: Delete, `DELETE /type/id` (§4.4, §6). The Namespace
Guard runs first. The revision is supplied by the `If-Match` header or the
`rev` query parameter: none supplied is a 400, both supplied and disagreeing
is a 400. An unknown id is a 404 (§7). A revision that is not the current one
is a 409 conflict; a matching one removes the document and replies 200 with
the tombstone revision and `deleted` set. -/
def deleteDoc (reserved : List String) (s : Store) (doctype id : String)
    (ifMatch revQuery : Option Revision) : Outcome :=
  if IsReserved reserved doctype then fail s reservedError
  else
    match ExpectedRevision ifMatch revQuery with
    | .error e => fail s e
    | .ok expected =>
      match s doctype id with
      | none => fail s (jsonapi.NotFound ⟨"missing"⟩)
      | some d =>
        if Compare expected d.rev then
          { store := s.set doctype id none,
            reply := .ok
              { code := http.StatusOK,
                body :=
                  { id := id, rev := nextRev d.rev, doctype := doctype, ok := true,
                    deleted := true, data := none } } }
        else fail s (jsonapi.Conflict ⟨"revision mismatch"⟩)

/-! ### Fixtures of `data_test.go` -/

/-- Document type used by the tests (constant `Type`). -/
def DocType : String := "io.cozy.events"

/-- Document id used by the tests (constant `ID`). -/
def ID : String := "4521C325F6478E45"

/-- Document type addressed by `TestVFSDoctype`. -/
def FilesType : String := "io.cozy.files"

/-- Classification table that reserves the type addressed by
`TestVFSDoctype`. -/
def reservedTypes : List String := [FilesType]

/-- Store with no document. -/
def emptyStore : Store := fun _ _ => none

/-- Store prepared by `TestMain`: one document of type `Type` under `ID`,
with the field `test`. -/
def testStore : Store :=
  emptyStore.set DocType ID
    (some { rev := firstRev, fields := [("test", json.Value.string "testvalue")] })

/-- Store holding one document of the reserved type, as written by the
subsystem that owns it. -/
def filesStore : Store :=
  emptyStore.set FilesType ID (some { rev := firstRev, fields := [] })

end data

/-! ## Index definitions (`web/data`, `_index`) -/

namespace data

/-- Modelled from the spec: an index definition (§3): an ordered list of field
names, with the design-document id and the index name the store gave it. -/
structure IndexDef where
  fields : List String
  id : String
  name : String
  deriving DecidableEq, Repr

/-- Modelled from the spec: the indexes the store owns (§3), per document
type, most recent first. A type without any index has the empty list; no
type is unknown to the index API (§4.4: defining an index provisions the
collection). -/
abbrev Indexes := String → List IndexDef

/-- Modelled from the spec: the answer to a define-index request (§4.4),
mirroring the test type `indexCreationResponse`: `result`, `id`, `name`. -/
structure IndexReply where
  result : String
  id : String
  name : String
  deriving DecidableEq, Repr

/-- Modelled from the spec: the name the store gives to the index over a
field list (§4.5: stable for that field list). -/
def indexName (fields : List String) : String :=
  "index-" ++ String.intercalate "-" fields

/-- Modelled from the spec: the design-document id the store gives to the
index over a field list (§4.4 `id: design-doc-id`, §4.5). -/
def indexID (fields : List String) : String :=
  "_design/" ++ indexName fields

/-- Modelled from the spec: `EnsureIndex(type, fields)` of the Index Manager
(§4.5): when the type already has an index over exactly this field list, the
store is left as it is and the answer is `exists` with the id and name of
that index; otherwise the index is recorded under the id and name the store
gives it and the answer is `created`. -/
def EnsureIndex (ix : Indexes) (doctype : String) (fields : List String) :
    Indexes × IndexReply :=
  match (ix doctype).find? (fun d => d.fields == fields) with
  | some d => (ix, { result := "exists", id := d.id, name := d.name })
  | none =>
    (fun t =>
        if t = doctype then
          { fields := fields, id := indexID fields, name := indexName fields } :: ix t
        else ix t,
      { result := "created", id := indexID fields, name := indexName fields })

/-- Modelled from the spec: what the define-index handler leaves behind (§4.4):
the indexes after the request, and either the error object or the status
and answer. -/
structure IndexOutcome where
  indexes : Indexes
  reply : Except jsonapi.Error (Int × IndexReply)

/-- Modelled from the spec: the HTTP status of a failed define-index request;
`none` when it succeeded. -/
def IndexOutcome.errorStatus (o : IndexOutcome) : Option Int :=
  match o.reply with
  | .error e => some e.Status
  | .ok _ => none

/-- Modelled from the spec: the status and answer of a successful define-index
request; `none` when it failed. -/
def IndexOutcome.answer (o : IndexOutcome) : Option (Int × IndexReply) :=
  match o.reply with
  | .error _ => none
  | .ok r => some r

/-- Modelled from the spec: Define index, `POST /type/_index` (§4.4, §6). The
Namespace Guard runs first, as in every operation; a body that does not
declare a field list is a 400 `BadJSON`; otherwise `EnsureIndex` answers and
the reply is 200. -/
def defineIndex (reserved : List String) (ix : Indexes) (doctype : String)
    (body : Option (List String)) : IndexOutcome :=
  if IsReserved reserved doctype then { indexes := ix, reply := .error reservedError }
  else
    match body with
    | none => { indexes := ix, reply := .error jsonapi.BadJSON }
    | some fields =>
      { indexes := (EnsureIndex ix doctype fields).1,
        reply := .ok (http.StatusOK, (EnsureIndex ix doctype fields).2) }

/-- Indexes of a store on which no index was defined. -/
def noIndexes : Indexes := fun _ => []

end data

/-! ## `web/registry/registry.go` -/

namespace echo

/-- Constant `echo.MIMEApplicationJSON`. -/
def MIMEApplicationJSON : String := "application/json"

end echo

namespace registry

/-- What `proxyReq` reads from its `echo.Context` and from the packages it
calls: the result pair of `i.Registries()`, the inbound request, the function
`registry.Proxy` with its result pair, and `c.Stream`. -/
structure Context (URL Req Body : Type) where
  Registries : List URL × Option GoError
  Request : Req
  Proxy : Req → List URL → Body × Option GoError
  Stream : Int → String → Body → Option GoError

/-- What one run of `proxyReq` does: the call made to `registry.Proxy`, if
any, with its arguments; the call made to `c.Stream`, if any; the body closed
by the deferred `r.Close()`, if any; and the returned error (`none` is
`nil`). -/
structure Run (URL Req Body : Type) where
  proxied : Option (Req × List URL)
  streamed : Option (Int × String × Body)
  closed : Option Body
  returned : Option GoError

/-- Handler `proxyReq`; the package variable `offlineRegistry`, declared
outside this file, is a parameter. -/
def proxyReq {URL Req Body : Type} (offlineRegistry : URL) (c : Context URL Req Body) :
    Run URL Req Body :=
  match c.Registries with
  | (_, some err) =>
    { proxied := none, streamed := none, closed := none, returned := some err }
  | (registries, none) =>
    let req := c.Request
    let registries := registries ++ [offlineRegistry]
    match c.Proxy req registries with
    | (_, some err) =>
      { proxied := some (req, registries), streamed := none, closed := none,
        returned := some err }
    | (r, none) =>
      { proxied := some (req, registries),
        streamed := some (http.StatusOK, echo.MIMEApplicationJSON, r),
        closed := some r,
        returned := c.Stream http.StatusOK echo.MIMEApplicationJSON r }

end registry

/-! ## Helper lemmas -/

/-- Every digit below ten prints as a decimal digit character. -/
theorem digitChar_isDigit : ∀ d : Nat, d < 10 → (Nat.digitChar d).isDigit = true := by
  decide

/-- The digit loop of `Nat.repr` only ever adds decimal digit characters. -/
theorem toDigitsCore_isDigit (fuel : Nat) :
    ∀ (n : Nat) (acc : List Char), (∀ c ∈ acc, c.isDigit = true) →
      ∀ c ∈ Nat.toDigitsCore 10 fuel n acc, c.isDigit = true := by
  induction fuel with
  | zero => intro n acc hacc c hc; simpa [Nat.toDigitsCore] using hacc c hc
  | succ k ih =>
    intro n acc hacc c hc
    have hd : (Nat.digitChar (n % 10)).isDigit = true :=
      digitChar_isDigit _ (Nat.mod_lt _ (by decide))
    have hacc2 : ∀ x ∈ Nat.digitChar (n % 10) :: acc, x.isDigit = true := by
      intro x hx
      rcases List.mem_cons.mp hx with h | h
      · rw [h]; exact hd
      · exact hacc x h
    simp only [Nat.toDigitsCore] at hc
    by_cases h0 : n / 10 = 0
    · rw [if_pos h0] at hc
      exact hacc2 c hc
    · rw [if_neg h0] at hc
      exact ih _ _ hacc2 c hc

/-- The decimal rendering of a natural number consists of decimal digits. -/
theorem repr_all_isDigit (n : Nat) : (Nat.repr n).data.all Char.isDigit = true := by
  rw [List.all_eq_true]
  intro c hc
  exact toDigitsCore_isDigit _ n [] (by simp) c (by simpa [Nat.repr, Nat.toDigits] using hc)

/-- Go's `strconv.Itoa` agrees with the decimal printing of integers. -/
theorem Itoa_eq_toString (n : Int) : strconv.Itoa n = toString n := by
  unfold strconv.Itoa
  cases n <;> simp [toString, instToStringInt, Int.repr]

/-- After a string operand, a run of string operands is printed without
separators. -/
theorem doPrint_strings (ss : List String) :
    ∀ prev : Bool, fmt.doPrint prev (ss.map fmt.Operand.str) = ss.foldr (fun a b => a ++ b) "" := by
  induction ss with
  | nil => intro prev; rfl
  | cons a rest ih =>
    intro prev
    simp [fmt.doPrint, fmt.Operand.isString, fmt.Operand.format, ih]

/-- One entry of a table of reason phrases, read as one test of an `if` chain. -/
theorem lookup_step (s k : Int) (v d : String) (rest : List (Int × String))
    (h : d = (List.lookup s rest).getD "") :
    (if s = k then v else d) = (List.lookup s ((k, v) :: rest)).getD "" := by
  by_cases hk : s = k
  · subst hk
    simp [List.lookup]
  · have hb : (s == k) = false := by simpa using hk
    simp [List.lookup, hk, hb, h]

/-- The reason phrase of a code is its entry in the table of `net/http`, and
the empty string for a code without an entry. -/
theorem StatusText_table (s : Int) :
    http.StatusText s
      = (List.lookup s
          [(100, "Continue"), (101, "Switching Protocols"), (102, "Processing"),
           (103, "Early Hints"), (200, "OK"), (201, "Created"), (202, "Accepted"),
           (203, "Non-Authoritative Information"), (204, "No Content"),
           (205, "Reset Content"), (206, "Partial Content"), (207, "Multi-Status"),
           (208, "Already Reported"), (226, "IM Used"), (300, "Multiple Choices"),
           (301, "Moved Permanently"), (302, "Found"), (303, "See Other"),
           (304, "Not Modified"), (305, "Use Proxy"), (307, "Temporary Redirect"),
           (308, "Permanent Redirect"), (400, "Bad Request"), (401, "Unauthorized"),
           (402, "Payment Required"), (403, "Forbidden"), (404, "Not Found"),
           (405, "Method Not Allowed"), (406, "Not Acceptable"),
           (407, "Proxy Authentication Required"), (408, "Request Timeout"),
           (409, "Conflict"), (410, "Gone"), (411, "Length Required"),
           (412, "Precondition Failed"), (413, "Request Entity Too Large"),
           (414, "Request URI Too Long"), (415, "Unsupported Media Type"),
           (416, "Requested Range Not Satisfiable"), (417, "Expectation Failed"),
           (418, "I\x27m a teapot"), (421, "Misdirected Request"),
           (422, "Unprocessable Entity"), (423, "Locked"), (424, "Failed Dependency"),
           (425, "Too Early"), (426, "Upgrade Required"), (428, "Precondition Required"),
           (429, "Too Many Requests"), (431, "Request Header Fields Too Large"),
           (451, "Unavailable For Legal Reasons"), (500, "Internal Server Error"),
           (501, "Not Implemented"), (502, "Bad Gateway"), (503, "Service Unavailable"),
           (504, "Gateway Timeout"), (505, "HTTP Version Not Supported"),
           (506, "Variant Also Negotiates"), (507, "Insufficient Storage"),
           (508, "Loop Detected"), (510, "Not Extended"),
           (511, "Network Authentication Required")]).getD "" := by
  unfold http.StatusText
  repeat' apply lookup_step
  rfl

/-- One more operand at the end of the loop of `fmt.Sprint`: a space when
neither it nor the operand before it is of string kind, then its format. -/
theorem doPrint_snoc (ms : List fmt.Operand) :
    ∀ (prev : Bool) (a b : fmt.Operand),
      fmt.doPrint prev (ms ++ [a, b])
        = fmt.doPrint prev (ms ++ [a])
            ++ ((if a.isString = false ∧ b.isString = false then " " else "") ++ b.format) := by
  induction ms with
  | nil =>
    intro prev a b
    cases ha : a.isString <;> cases hb : b.isString <;>
      simp [fmt.doPrint, ha, hb, String.append_assoc]
  | cons c rest ih =>
    intro prev a b
    simp [fmt.doPrint, ih, String.append_assoc]

/-- One more operand at the end of `fmt.Sprint`, after at least one other. -/
theorem Sprint_snoc (ms : List fmt.Operand) (a b : fmt.Operand) :
    fmt.Sprint (ms ++ [a, b])
      = fmt.Sprint (ms ++ [a])
          ++ ((if a.isString = false ∧ b.isString = false then " " else "") ++ b.format) := by
  cases ms with
  | nil =>
    cases ha : a.isString <;> cases hb : b.isString <;>
      simp [fmt.Sprint, fmt.doPrint, ha, hb, String.append_assoc]
  | cons c rest =>
    simp [fmt.Sprint, doPrint_snoc, String.append_assoc]

/-- Fields of the error object built by `NewError`; `fmt.Sprint` of no operand
is the empty string. -/
theorem NewError_fields (s : Int) (msg : List fmt.Operand) :
    jsonapi.NewError s msg
      = { Status := s, Title := http.StatusText s, Detail := fmt.Sprint msg,
          Source := { Pointer := "", Parameter := "" } } := by
  cases msg with
  | nil => rfl
  | cons m ms => simp [jsonapi.NewError]

/-! ## Error envelope -/

/-- C1 as stated fails: the detail of `BadJSON()` is not the string
"malformed or missing mandatory fields". -/
theorem C1_BadJSON_detail_differs :
    jsonapi.BadJSON.Status = 400 ∧
      jsonapi.BadJSON.Detail ≠ "malformed or missing mandatory fields" := by
  decide

/-- C1 (amended): `BadJSON()` takes no input and returns an error object whose
status is 400 and whose detail is exactly the fixed string
"JSON input is malformed or is missing mandatory fields". -/
theorem C1_BadJSON_fixed :
    jsonapi.BadJSON.Status = 400 ∧
      jsonapi.BadJSON.Detail = "JSON input is malformed or is missing mandatory fields" := by
  decide

/-- C2: for every error `err`, `NotFound`, `BadRequest`, `Conflict` and
`InternalServerError` return an error object of status 404, 400, 409 and 500
respectively, with a title fixed by the constructor and a detail equal to the
message of `err`. -/
theorem C2_plain_constructors (err : GoError) :
    (jsonapi.NotFound err).Status = 404 ∧
      (jsonapi.NotFound err).Title = "Not Found" ∧
      (jsonapi.NotFound err).Detail = err.Error ∧
    (jsonapi.BadRequest err).Status = 400 ∧
      (jsonapi.BadRequest err).Title = "Bad request" ∧
      (jsonapi.BadRequest err).Detail = err.Error ∧
    (jsonapi.Conflict err).Status = 409 ∧
      (jsonapi.Conflict err).Title = "Conflict" ∧
      (jsonapi.Conflict err).Detail = err.Error ∧
    (jsonapi.InternalServerError err).Status = 500 ∧
      (jsonapi.InternalServerError err).Title = "Internal Server Error" ∧
      (jsonapi.InternalServerError err).Detail = err.Error := by
  refine ⟨rfl, rfl, rfl, rfl, rfl, rfl, rfl, rfl, rfl, rfl, rfl, rfl⟩

/-- C3: for every attribute name `a` and error `err`, `InvalidAttribute(a, err)`
has status 422, detail equal to the message of `err`, source pointer
"/data/attributes/" followed by `a`, and an empty source parameter. -/
theorem C3_InvalidAttribute (a : String) (err : GoError) :
    (jsonapi.InvalidAttribute a err).Status = 422 ∧
      (jsonapi.InvalidAttribute a err).Detail = err.Error ∧
      (jsonapi.InvalidAttribute a err).Source.Pointer = "/data/attributes/" ++ a ∧
      (jsonapi.InvalidAttribute a err).Source.Parameter = "" := by
  refine ⟨rfl, rfl, rfl, rfl⟩

/-- C4: for every parameter name `p` and error `err`, `PreconditionFailed(p, err)`
has status 412 and `InvalidParameter(p, err)` has status 422; both record `p`
unchanged in the source parameter, leave the source pointer empty and set the
detail to the message of `err`. -/
theorem C4_parameter_constructors (p : String) (err : GoError) :
    (jsonapi.PreconditionFailed p err).Status = 412 ∧
      (jsonapi.PreconditionFailed p err).Source.Parameter = p ∧
      (jsonapi.PreconditionFailed p err).Source.Pointer = "" ∧
      (jsonapi.PreconditionFailed p err).Detail = err.Error ∧
    (jsonapi.InvalidParameter p err).Status = 422 ∧
      (jsonapi.InvalidParameter p err).Source.Parameter = p ∧
      (jsonapi.InvalidParameter p err).Source.Pointer = "" ∧
      (jsonapi.InvalidParameter p err).Detail = err.Error := by
  refine ⟨rfl, rfl, rfl, rfl, rfl, rfl, rfl, rfl⟩

/-- C5: for every error object, the JSON encoding has a `status` member that
is a JSON string holding the decimal rendering of the status code (its
decimal digits, after a minus sign for a negative code), never a JSON
number. -/
theorem C5_status_is_string (e : jsonapi.Error) :
    e.MarshalJSON.member "status" = some (json.Value.string (strconv.Itoa e.Status)) ∧
      (e.MarshalJSON.member "status").map json.Value.isNumber = some false ∧
      strconv.Itoa e.Status = toString e.Status ∧
      strconv.Itoa e.Status
        = (if e.Status < 0 then "-" else "") ++ Nat.repr e.Status.natAbs ∧
      (Nat.repr e.Status.natAbs).data.all Char.isDigit = true := by
  refine ⟨rfl, rfl, Itoa_eq_toString _, ?_, repr_all_isDigit _⟩
  unfold strconv.Itoa
  split
  · rfl
  · rename_i h
    have h0 : 0 ≤ e.Status := not_lt.mp h
    have : e.Status.toNat = e.Status.natAbs := by omega
    simp [this]

/-- C6: for every status code `s`, `NewError(s)` without message arguments has
status `s`, the reason phrase of `s` in the table of `net/http` as title (the
empty string for a code without one), an empty detail and an empty source.
With message arguments the status, title and source are the same and the
detail is `fmt.Sprint` of the arguments: a single argument gives its default
format (the string itself, the decimal integer, `true` or `false`, `<nil>`,
the message of an error), and each further argument appends its default
format, after a space when neither it nor the argument before it is of string
kind; string arguments are therefore concatenated as they are. -/
theorem C6_NewError (s : Int) :
    jsonapi.NewError s []
        = { Status := s,
            Title := (List.lookup s
              [(100, "Continue"), (101, "Switching Protocols"), (102, "Processing"),
               (103, "Early Hints"), (200, "OK"), (201, "Created"), (202, "Accepted"),
               (203, "Non-Authoritative Information"), (204, "No Content"),
               (205, "Reset Content"), (206, "Partial Content"), (207, "Multi-Status"),
               (208, "Already Reported"), (226, "IM Used"), (300, "Multiple Choices"),
               (301, "Moved Permanently"), (302, "Found"), (303, "See Other"),
               (304, "Not Modified"), (305, "Use Proxy"), (307, "Temporary Redirect"),
               (308, "Permanent Redirect"), (400, "Bad Request"), (401, "Unauthorized"),
               (402, "Payment Required"), (403, "Forbidden"), (404, "Not Found"),
               (405, "Method Not Allowed"), (406, "Not Acceptable"),
               (407, "Proxy Authentication Required"), (408, "Request Timeout"),
               (409, "Conflict"), (410, "Gone"), (411, "Length Required"),
               (412, "Precondition Failed"), (413, "Request Entity Too Large"),
               (414, "Request URI Too Long"), (415, "Unsupported Media Type"),
               (416, "Requested Range Not Satisfiable"), (417, "Expectation Failed"),
               (418, "I\x27m a teapot"), (421, "Misdirected Request"),
               (422, "Unprocessable Entity"), (423, "Locked"), (424, "Failed Dependency"),
               (425, "Too Early"), (426, "Upgrade Required"), (428, "Precondition Required"),
               (429, "Too Many Requests"), (431, "Request Header Fields Too Large"),
               (451, "Unavailable For Legal Reasons"), (500, "Internal Server Error"),
               (501, "Not Implemented"), (502, "Bad Gateway"), (503, "Service Unavailable"),
               (504, "Gateway Timeout"), (505, "HTTP Version Not Supported"),
               (506, "Variant Also Negotiates"), (507, "Insufficient Storage"),
               (508, "Loop Detected"), (510, "Not Extended"),
               (511, "Network Authentication Required")]).getD "",
            Detail := "",
            Source := { Pointer := "", Parameter := "" } } ∧
      (∀ (m : fmt.Operand) (ms : List fmt.Operand),
        (jsonapi.NewError s (m :: ms)).Status = s ∧
          (jsonapi.NewError s (m :: ms)).Title = (jsonapi.NewError s []).Title ∧
          (jsonapi.NewError s (m :: ms)).Source = { Pointer := "", Parameter := "" }) ∧
      (∀ x : String, (jsonapi.NewError s [.str x]).Detail = x) ∧
      (∀ n : Int, (jsonapi.NewError s [.int n]).Detail = toString n) ∧
      (∀ b : Bool,
        (jsonapi.NewError s [.bool b]).Detail = if b then "true" else "false") ∧
      (jsonapi.NewError s [.nil]).Detail = "<nil>" ∧
      (∀ (e : GoError) (k : Bool), (jsonapi.NewError s [.err e k]).Detail = e.Error) ∧
      (∀ (k : Bool) (r : String), (jsonapi.NewError s [.other k r]).Detail = r) ∧
      (∀ (ms : List fmt.Operand) (a b : fmt.Operand),
        (jsonapi.NewError s (ms ++ [a, b])).Detail
          = (jsonapi.NewError s (ms ++ [a])).Detail
              ++ (if a.isString = false ∧ b.isString = false then " " else "")
              ++ (jsonapi.NewError s [b]).Detail) ∧
      ((∀ x : String, (fmt.Operand.str x).isString = true) ∧
        (∀ n : Int, (fmt.Operand.int n).isString = false) ∧
        (∀ b : Bool, (fmt.Operand.bool b).isString = false) ∧
        fmt.Operand.nil.isString = false ∧
        (∀ (e : GoError) (k : Bool), (fmt.Operand.err e k).isString = k) ∧
        (∀ (k : Bool) (r : String), (fmt.Operand.other k r).isString = k)) ∧
      (∀ (x : String) (ss : List String),
        (jsonapi.NewError s ((x :: ss).map fmt.Operand.str)).Detail
          = x ++ ss.foldr (fun a b => a ++ b) "") ∧
      ((jsonapi.NewError 400 [.err ⟨"a"⟩ true, .err ⟨"b"⟩ true]).Detail = "ab" ∧
        (jsonapi.NewError 400 [.err ⟨"a"⟩ false, .err ⟨"b"⟩ false]).Detail = "a b" ∧
        (jsonapi.NewError 400 [.int 1, .int 2]).Detail = "1 2" ∧
        (jsonapi.NewError 400 [.str "a", .int 1, .int 2, .str "b"]).Detail = "a1 2b" ∧
        (jsonapi.NewError 404 []).Title = "Not Found" ∧
        (jsonapi.NewError 999 []).Title = "") := by
  have hd : ∀ msg : List fmt.Operand, (jsonapi.NewError s msg).Detail = fmt.Sprint msg := by
    intro msg
    rw [NewError_fields]
  refine ⟨?_, ?_, ?_, ?_, ?_, ?_, ?_, ?_, ?_, ?_, ?_, ?_⟩
  · rw [NewError_fields, StatusText_table]
    rfl
  · intro m ms
    rw [NewError_fields, NewError_fields]
    exact ⟨rfl, rfl, rfl⟩
  · intro x
    rw [hd]
    simp [fmt.Sprint, fmt.doPrint, fmt.Operand.format]
  · intro n
    rw [hd]
    simp [fmt.Sprint, fmt.doPrint, fmt.Operand.format, Itoa_eq_toString]
  · intro b
    rw [hd]
    simp [fmt.Sprint, fmt.doPrint, fmt.Operand.format]
  · rw [hd]
    rfl
  · intro e k
    rw [hd]
    simp [fmt.Sprint, fmt.doPrint, fmt.Operand.format]
  · intro k r
    rw [hd]
    simp [fmt.Sprint, fmt.doPrint, fmt.Operand.format]
  · intro ms a b
    rw [hd, hd, hd, Sprint_snoc]
    simp [fmt.Sprint, fmt.doPrint, String.append_assoc]
  · exact ⟨fun _ => rfl, fun _ => rfl, fun _ => rfl, rfl, fun _ _ => rfl, fun _ _ => rfl⟩
  · intro x ss
    rw [hd]
    simp [fmt.Sprint, fmt.Operand.isString, fmt.Operand.format, doPrint_strings]
  · decide

/-! ## Document adapter -/

/-- The reserved-type error is a 403 titled "Forbidden" whose detail names the
type as reserved. -/
theorem reservedError_facts :
    data.reservedError.Status = 403 ∧ data.reservedError.Title = "Forbidden" ∧
      data.reservedError.Detail = "reserved document type" := by
  decide

/-- Both revisions supplied and different: the expected revision is a 400. -/
theorem ExpectedRevision_mismatch (h q : data.Revision) (hne : h ≠ q) :
    data.ExpectedRevision (some h) (some q)
      = .error (jsonapi.BadRequest ⟨"revisions of the request do not match"⟩) := by
  simp [data.ExpectedRevision, hne]

/-- A request resolves to the expected revision `r` exactly when at least one
of its two places carries `r` and the other carries `r` or nothing. -/
theorem ExpectedRevision_ok_iff (a b : Option data.Revision) (r : data.Revision) :
    data.ExpectedRevision a b = .ok r ↔
      (a = some r ∧ b = some r) ∨ (a = some r ∧ b = none) ∨ (a = none ∧ b = some r) := by
  cases a <;> cases b <;> simp [data.ExpectedRevision]
  rename_i x y
  by_cases hxy : x = y
  · simp [hxy]
  · simp [hxy]
    intro h1 h2
    exact hxy (h1.trans h2.symm)

/-- C7 as stated fails: a document of a reserved type exists at revision 1;
an update and a delete submitted with revision 2 are answered 403, not 409,
and an update and a delete submitted with revision 1 are answered 403 and do
not succeed. -/
theorem C7_reserved_document_is_forbidden :
    (data.filesStore data.FilesType data.ID).map (fun d => d.rev) = some 1 ∧
      (data.updateDoc data.reservedTypes data.filesStore data.FilesType data.ID none
        (some { id := some data.ID, rev := some 2 })).errorStatus = some 403 ∧
      (data.deleteDoc data.reservedTypes data.filesStore data.FilesType data.ID
        (some 2) none).errorStatus = some 403 ∧
      (data.updateDoc data.reservedTypes data.filesStore data.FilesType data.ID none
        (some { id := some data.ID, rev := some 1 })).errorStatus = some 403 ∧
      (data.deleteDoc data.reservedTypes data.filesStore data.FilesType data.ID
        (some 1) none).errorStatus = some 403 := by
  decide

/-- C7 (amended): for every existing document `D` of a type that is not
reserved, with current revision `R`: an update (body carrying the id of `D`)
or a delete submitted with a revision different from `R` fails with 409 and
leaves the store, hence `D`, unchanged; one submitted with revision `R`
succeeds with 200 and returns a new revision different from `R`, the update
storing the new fields at that revision and the delete removing `D`. -/
theorem C7_revision_check (reserved : List String) (s : data.Store) (t id : String)
    (d : data.StoredDoc) (r : data.Revision) (fields : data.Fields)
    (hdr ifMatch revQuery : Option data.Revision)
    (hopen : data.IsReserved reserved t = false) (hd : s t id = some d)
    (hupd : data.ExpectedRevision hdr (some r) = .ok r)
    (hdel : data.ExpectedRevision ifMatch revQuery = .ok r) :
    (r ≠ d.rev →
      (data.updateDoc reserved s t id hdr
          (some { id := some id, rev := some r, fields := fields })).errorStatus = some 409 ∧
        (data.updateDoc reserved s t id hdr
          (some { id := some id, rev := some r, fields := fields })).store = s ∧
        (data.deleteDoc reserved s t id ifMatch revQuery).errorStatus = some 409 ∧
        (data.deleteDoc reserved s t id ifMatch revQuery).store = s) ∧
    (r = d.rev →
      (data.updateDoc reserved s t id hdr
          (some { id := some id, rev := some r, fields := fields })).okStatus = some 200 ∧
        (data.updateDoc reserved s t id hdr
          (some { id := some id, rev := some r, fields := fields })).newRev
            = some (data.nextRev d.rev) ∧
        (data.updateDoc reserved s t id hdr
          (some { id := some id, rev := some r, fields := fields })).store t id
            = some { rev := data.nextRev d.rev, fields := fields } ∧
        (data.deleteDoc reserved s t id ifMatch revQuery).okStatus = some 200 ∧
        (data.deleteDoc reserved s t id ifMatch revQuery).newRev
            = some (data.nextRev d.rev) ∧
        (data.deleteDoc reserved s t id ifMatch revQuery).store t id = none ∧
        data.nextRev d.rev ≠ d.rev) := by
  constructor
  · intro hne
    simp [data.updateDoc, data.deleteDoc, hopen, hd, hupd, hdel, data.Compare, hne,
      data.fail, data.Outcome.errorStatus, jsonapi.Conflict, http.StatusConflict]
  · intro heq
    subst heq
    simp [data.updateDoc, data.deleteDoc, hopen, hd, hupd, hdel, data.Compare,
      data.stored, data.Outcome.okStatus, data.Outcome.newRev, data.Store.set,
      http.StatusOK, data.nextRev]

/-- Witness of C7 on the store of the tests: the document under `ID` is at
revision 1; revision 2 is refused with 409, revision 1 is accepted and the
new revision is 2. -/
theorem C7_revision_check_witness :
    data.IsReserved data.reservedTypes data.DocType = false ∧
      (data.testStore data.DocType data.ID).map (fun d => d.rev) = some 1 ∧
      (data.updateDoc data.reservedTypes data.testStore data.DocType data.ID none
        (some { id := some data.ID, rev := some 2, fields := [] })).errorStatus = some 409 ∧
      (data.deleteDoc data.reservedTypes data.testStore data.DocType data.ID
        none (some 2)).errorStatus = some 409 ∧
      (data.updateDoc data.reservedTypes data.testStore data.DocType data.ID none
        (some { id := some data.ID, rev := some 1, fields := [] })).newRev = some 2 ∧
      (data.deleteDoc data.reservedTypes data.testStore data.DocType data.ID
        none (some 1)).newRev = some 2 :=
  have h2 := (C7_revision_check data.reservedTypes data.testStore data.DocType data.ID
    { rev := 1, fields := [("test", json.Value.string "testvalue")] } 2 [] none none (some 2)
    (by decide) rfl rfl rfl).1 (by decide)
  have h1 := (C7_revision_check data.reservedTypes data.testStore data.DocType data.ID
    { rev := 1, fields := [("test", json.Value.string "testvalue")] } 1 [] none none (some 1)
    (by decide) rfl rfl rfl).2 rfl
  ⟨by decide, by decide, h2.1, h2.2.2.1, h1.2.1, h1.2.2.2.2.1⟩

/-- C8 as stated fails: a delete addressed to a reserved type with `If-Match`
1 and `rev` 2 is answered 403, not 400. -/
theorem C8_reserved_type_is_forbidden :
    data.IsReserved data.reservedTypes data.FilesType = true ∧
      (data.deleteDoc data.reservedTypes data.filesStore data.FilesType data.ID
        (some 1) (some 2)).errorStatus = some 403 := by
  decide

/-- C8 (amended): for every delete request addressed to a type that is not
reserved and supplying a revision both in the `If-Match` header and in the
`rev` query parameter, if the two values differ the request fails with 400
and the store is left unchanged, whatever the store holds under the
addressed id. -/
theorem C8_delete_header_query_mismatch (reserved : List String) (s : data.Store)
    (t id : String) (h q : data.Revision)
    (hopen : data.IsReserved reserved t = false) (hne : h ≠ q) :
    (data.deleteDoc reserved s t id (some h) (some q)).errorStatus = some 400 ∧
      (data.deleteDoc reserved s t id (some h) (some q)).store = s := by
  simp [data.deleteDoc, hopen, ExpectedRevision_mismatch h q hne, data.fail,
    data.Outcome.errorStatus, jsonapi.BadRequest, http.StatusBadRequest]

/-- Witness of C8: the request of `TestFailDeleteIfHeaderAndRevMismatch`, two
different revisions neither of which is the current one. -/
theorem C8_delete_header_query_mismatch_witness :
    data.IsReserved data.reservedTypes data.DocType = false ∧ (3 : data.Revision) ≠ 2 ∧
      (data.deleteDoc data.reservedTypes data.testStore data.DocType data.ID
        (some 3) (some 2)).errorStatus = some 400 :=
  ⟨by decide, by decide,
    (C8_delete_header_query_mismatch data.reservedTypes data.testStore data.DocType
      data.ID 3 2 (by decide) (by decide)).1⟩

/-- C9 as stated fails: addressed to a reserved type, an update of an existing
document whose body carries no revision and a delete without any revision
are answered 403, not 400. -/
theorem C9_reserved_type_is_forbidden :
    (data.filesStore data.FilesType data.ID).isSome = true ∧
      (data.updateDoc data.reservedTypes data.filesStore data.FilesType data.ID none
        (some { id := some data.ID, rev := none })).errorStatus = some 403 ∧
      (data.deleteDoc data.reservedTypes data.filesStore data.FilesType data.ID
        none none).errorStatus = some 403 := by
  decide

/-- C9 (amended): addressed to a type that is not reserved, every update of an
existing document whose body carries no revision, and every delete that
supplies no revision in either the `If-Match` header or the `rev` query
parameter, fails with 400 and leaves the store unchanged; a create, by
`POST` or by `PUT` to an id that does not exist, succeeds without a
revision. -/
theorem C9_revision_is_mandatory (reserved : List String) (s : data.Store)
    (t id uuid : String) (fields : data.Fields)
    (hopen : data.IsReserved reserved t = false) :
    (∀ (d : data.StoredDoc) (hdr : Option data.Revision) (bodyId : Option String),
      s t id = some d →
        (data.updateDoc reserved s t id hdr
            (some { id := bodyId, rev := none, fields := fields })).errorStatus = some 400 ∧
          (data.updateDoc reserved s t id hdr
            (some { id := bodyId, rev := none, fields := fields })).store = s) ∧
    ((data.deleteDoc reserved s t id none none).errorStatus = some 400 ∧
      (data.deleteDoc reserved s t id none none).store = s) ∧
    (s t uuid = none →
      (data.createDoc reserved s t uuid
          (some { id := none, rev := none, fields := fields })).okStatus = some 201 ∧
        (data.createDoc reserved s t uuid
          (some { id := none, rev := none, fields := fields })).store t uuid
            = some { rev := data.firstRev, fields := fields }) ∧
    (s t id = none →
      (data.updateDoc reserved s t id none
          (some { id := some id, rev := none, fields := fields })).okStatus = some 200 ∧
        (data.updateDoc reserved s t id none
          (some { id := some id, rev := none, fields := fields })).store t id
            = some { rev := data.firstRev, fields := fields }) := by
  refine ⟨?_, ?_, ?_, ?_⟩
  · intro d hdr bodyId hd
    by_cases hid : bodyId = some id
    · simp [data.updateDoc, hopen, hd, hid, data.fail, data.Outcome.errorStatus,
        jsonapi.BadJSON, http.StatusBadRequest]
    · simp [data.updateDoc, hopen, hd, hid, data.fail, data.Outcome.errorStatus,
        jsonapi.BadRequest, http.StatusBadRequest]
  · simp [data.deleteDoc, hopen, data.ExpectedRevision, data.fail,
      data.Outcome.errorStatus, jsonapi.BadRequest, http.StatusBadRequest]
  · intro hfree
    simp [data.createDoc, hopen, hfree, data.stored, data.Outcome.okStatus,
      data.Store.set, http.StatusCreated]
  · intro hfree
    simp [data.updateDoc, hopen, hfree, data.stored, data.Outcome.okStatus,
      data.Store.set, http.StatusOK]

/-- Witness of C9 on the store of the tests: the requests of
`TestNoRevInDocUpdate` and `TestFailDeleteIfNoRev` are answered 400, and the
create of `TestCreateDocWithAFixedID` is answered 200. -/
theorem C9_revision_is_mandatory_witness :
    data.IsReserved data.reservedTypes data.DocType = false ∧
      (data.testStore data.DocType data.ID).isSome = true ∧
      (data.updateDoc data.reservedTypes data.testStore data.DocType data.ID none
        (some { id := some data.ID, rev := none, fields := [] })).errorStatus = some 400 ∧
      (data.deleteDoc data.reservedTypes data.testStore data.DocType data.ID
        none none).errorStatus = some 400 :=
  have h := C9_revision_is_mandatory data.reservedTypes data.testStore data.DocType data.ID
    "specific-id" [] (by decide)
  ⟨by decide, by decide,
    (h.1 { rev := 1, fields := [("test", json.Value.string "testvalue")] } none
      (some data.ID) rfl).1,
    h.2.1.1⟩

/-- C10: every create, update or delete addressed to a reserved document type
fails with a 403 error titled "Forbidden" whose detail contains the word
"reserved", and leaves the store unchanged, whatever the store holds under
the addressed id and whatever the request carries. -/
theorem C10_reserved_type_forbidden (reserved : List String) (s : data.Store)
    (t id uuid : String) (body : Option data.Body)
    (hdr ifMatch revQuery : Option data.Revision)
    (hres : data.IsReserved reserved t = true) :
    ((data.createDoc reserved s t uuid body).errorStatus = some 403 ∧
      (∃ detail, (data.createDoc reserved s t uuid body).errorDetail = some detail ∧
        "reserved".data <:+: detail.data) ∧
      (data.createDoc reserved s t uuid body).store = s) ∧
    ((data.updateDoc reserved s t id hdr body).errorStatus = some 403 ∧
      (∃ detail, (data.updateDoc reserved s t id hdr body).errorDetail = some detail ∧
        "reserved".data <:+: detail.data) ∧
      (data.updateDoc reserved s t id hdr body).store = s) ∧
    ((data.deleteDoc reserved s t id ifMatch revQuery).errorStatus = some 403 ∧
      (∃ detail, (data.deleteDoc reserved s t id ifMatch revQuery).errorDetail = some detail ∧
        "reserved".data <:+: detail.data) ∧
      (data.deleteDoc reserved s t id ifMatch revQuery).store = s) := by
  have hs : data.reservedError.Status = 403 := reservedError_facts.1
  have hdt : "reserved".data <:+: data.reservedError.Detail.data := by decide
  refine ⟨⟨?_, ⟨data.reservedError.Detail, ?_, hdt⟩, ?_⟩,
    ⟨?_, ⟨data.reservedError.Detail, ?_, hdt⟩, ?_⟩,
    ⟨?_, ⟨data.reservedError.Detail, ?_, hdt⟩, ?_⟩⟩ <;>
  simp [data.createDoc, data.updateDoc, data.deleteDoc, hres, data.fail,
    data.Outcome.errorStatus, data.Outcome.errorDetail, hs]

/-- Witness of C10: the request of `TestVFSDoctype`, a create addressed to
`io.cozy.files`, and an update and a delete of an id that does not exist. -/
theorem C10_reserved_type_forbidden_witness :
    data.IsReserved data.reservedTypes data.FilesType = true ∧
      (data.emptyStore data.FilesType "no-such-id").isNone = true ∧
      (data.createDoc data.reservedTypes data.emptyStore data.FilesType "new-id"
        (some { fields := [("wrong-vfs", json.Value.string "structure")] })).errorStatus
          = some 403 ∧
      (data.updateDoc data.reservedTypes data.emptyStore data.FilesType "no-such-id" none
        (some { fields := [("wrong-vfs", json.Value.string "structure")] })).errorStatus
          = some 403 ∧
      (data.deleteDoc data.reservedTypes data.emptyStore data.FilesType "no-such-id"
        (some 1) none).errorStatus = some 403 :=
  have h := C10_reserved_type_forbidden data.reservedTypes data.emptyStore data.FilesType
    "no-such-id" "new-id" (some { fields := [("wrong-vfs", json.Value.string "structure")] })
    none (some 1) none (by decide)
  ⟨by decide, by decide, h.1.1, h.2.1.1, h.2.2.1⟩

/-! ## Index definitions -/

/-- The id and the name the store gives to an index are never empty. -/
theorem index_names_nonempty (fields : List String) :
    data.indexID fields ≠ "" ∧ data.indexName fields ≠ "" := by
  constructor <;>
  · intro h
    have hlen := congrArg String.length h
    simp only [data.indexID, data.indexName, String.length_append] at hlen
    have h6 : "index-".length = 6 := by decide
    have h8 : "_design/".length = 8 := by decide
    have h0 : "".length = 0 := by decide
    omega

/-- On a type without an index over `fields`, `EnsureIndex` records the index
and answers `created`. -/
theorem EnsureIndex_created (ix : data.Indexes) (t : String) (fields : List String)
    (hnew : (ix t).find? (fun d => d.fields == fields) = none) :
    (data.EnsureIndex ix t fields).2
        = { result := "created", id := data.indexID fields, name := data.indexName fields } ∧
      (data.EnsureIndex ix t fields).1 t
        = { fields := fields, id := data.indexID fields, name := data.indexName fields }
            :: ix t := by
  simp [data.EnsureIndex, hnew]

/-- On a type whose most recent index is over `fields`, `EnsureIndex` leaves
the indexes as they are and answers `exists` with the id and name of that
index. -/
theorem EnsureIndex_exists (ix : data.Indexes) (t : String) (d : data.IndexDef)
    (rest : List data.IndexDef) (hix : ix t = d :: rest) :
    data.EnsureIndex ix t d.fields
      = (ix, { result := "exists", id := d.id, name := d.name }) := by
  simp [data.EnsureIndex, hix]

/-- C11 as stated fails: a define-index request addressed to a reserved type is
answered 403; and on a type that already has the index over `foo` (the state
left by `TestDefineIndex`), the first of two define-index requests in a row
answers `exists`, not `created`. -/
theorem C11_first_answer_is_not_always_created :
    (data.defineIndex data.reservedTypes data.noIndexes data.FilesType
        (some ["foo"])).errorStatus = some 403 ∧
      data.IsReserved data.reservedTypes data.DocType = false ∧
      (data.defineIndex data.reservedTypes
        (data.EnsureIndex data.noIndexes data.DocType ["foo"]).1 data.DocType
        (some ["foo"])).answer
          = some (200, { result := "exists", id := "_design/index-foo",
                         name := "index-foo" }) := by
  decide

/-- C11 (amended): for every document type `T` that is not reserved and field
list `F` over which `T` has no index yet, defining the index `(T, F)` twice in
a row answers 200 with result `created` the first time and 200 with result
`exists` the second time, without error, with the same non-empty index id and
index name both times; the second request leaves the indexes unchanged. -/
theorem C11_define_index_twice (reserved : List String) (ix : data.Indexes)
    (t : String) (fields : List String)
    (hopen : data.IsReserved reserved t = false)
    (hnew : (ix t).find? (fun d => d.fields == fields) = none) :
    (data.defineIndex reserved ix t (some fields)).answer
        = some (200, { result := "created", id := data.indexID fields,
                       name := data.indexName fields }) ∧
      (data.defineIndex reserved (data.defineIndex reserved ix t (some fields)).indexes t
          (some fields)).answer
        = some (200, { result := "exists", id := data.indexID fields,
                       name := data.indexName fields }) ∧
      (data.defineIndex reserved (data.defineIndex reserved ix t (some fields)).indexes t
          (some fields)).indexes
        = (data.defineIndex reserved ix t (some fields)).indexes ∧
      data.indexID fields ≠ "" ∧ data.indexName fields ≠ "" := by
  have h1 := EnsureIndex_created ix t fields hnew
  have h2 := EnsureIndex_exists (data.EnsureIndex ix t fields).1 t
    { fields := fields, id := data.indexID fields, name := data.indexName fields }
    (ix t) h1.2
  simp only at h2
  refine ⟨?_, ?_, ?_, (index_names_nonempty fields).1, (index_names_nonempty fields).2⟩
  · simp [data.defineIndex, hopen, data.IndexOutcome.answer, h1.1, http.StatusOK]
  · simp [data.defineIndex, hopen, data.IndexOutcome.answer, h2, http.StatusOK]
  · simp [data.defineIndex, hopen, h2]

/-- Witness of C11: the requests of `TestDefineIndex` and `TestReDefineIndex`,
the index over `foo` defined twice on the type of the tests. -/
theorem C11_define_index_twice_witness :
    data.IsReserved data.reservedTypes data.DocType = false ∧
      (data.noIndexes data.DocType).find? (fun d => d.fields == ["foo"]) = none ∧
      (data.defineIndex data.reservedTypes data.noIndexes data.DocType
          (some ["foo"])).answer
        = some (200, { result := "created", id := data.indexID ["foo"],
                       name := data.indexName ["foo"] }) ∧
      (data.defineIndex data.reservedTypes
          (data.defineIndex data.reservedTypes data.noIndexes data.DocType
            (some ["foo"])).indexes data.DocType (some ["foo"])).answer
        = some (200, { result := "exists", id := data.indexID ["foo"],
                       name := data.indexName ["foo"] }) :=
  have h := C11_define_index_twice data.reservedTypes data.noIndexes data.DocType ["foo"]
    (by decide) (by decide)
  ⟨by decide, by decide, h.1, h.2.1⟩

/-! ## Encoding of the source member -/

/-- The encoding of an error object always has a `source` member, holding the
encoding of its source. -/
theorem source_member_written (e : jsonapi.Error) :
    e.MarshalJSON.member "source" = some e.Source.MarshalJSON := by
  rfl

/-- An empty source is encoded as the empty object. -/
theorem empty_source_encoding :
    jsonapi.SourceError.MarshalJSON { Pointer := "", Parameter := "" }
      = json.Value.object [] := by
  rfl

/-- C12 fails on the code: the error object built by `NotFound` has an empty
source pointer and an empty source parameter, and its encoding still has a
`source` member, the empty object, after `status`, `title` and `detail`. -/
theorem C12_empty_source_is_written :
    (jsonapi.NotFound ⟨"missing"⟩).Source = { Pointer := "", Parameter := "" } ∧
      (jsonapi.NotFound ⟨"missing"⟩).MarshalJSON.members.map Prod.fst
        = ["status", "title", "detail", "source"] ∧
      (jsonapi.NotFound ⟨"missing"⟩).MarshalJSON.member "source"
        = some (json.Value.object []) := by
  refine ⟨rfl, rfl, ?_⟩
  rw [source_member_written]
  exact congrArg some empty_source_encoding

/-! ## Registry proxy -/

/-- C13: for every list `L` of tenant registries read without error,
`proxyReq` calls `registry.Proxy` once, with the inbound request and the list
`L` followed by the fallback registry: the fallback is the last element and
what precedes it is `L` in order. When reading the registries fails, that
error is returned, `registry.Proxy` is not called and nothing is streamed. -/
theorem C13_proxyReq_forwards {URL Req Body : Type} (offlineRegistry : URL)
    (L : List URL) (req : Req) (proxy : Req → List URL → Body × Option GoError)
    (stream : Int → String → Body → Option GoError) :
    (registry.proxyReq offlineRegistry
        { Registries := (L, none), Request := req, Proxy := proxy, Stream := stream }).proxied
      = some (req, L ++ [offlineRegistry]) ∧
    (L ++ [offlineRegistry]).getLast? = some offlineRegistry ∧
    (L ++ [offlineRegistry]).dropLast = L ∧
    (∀ (err : GoError) (readList : List URL),
      (registry.proxyReq offlineRegistry
          { Registries := (readList, some err), Request := req, Proxy := proxy,
            Stream := stream }).returned = some err ∧
        (registry.proxyReq offlineRegistry
          { Registries := (readList, some err), Request := req, Proxy := proxy,
            Stream := stream }).proxied = none ∧
        (registry.proxyReq offlineRegistry
          { Registries := (readList, some err), Request := req, Proxy := proxy,
            Stream := stream }).streamed = none) := by
  refine ⟨?_, by simp, by simp, ?_⟩
  · simp only [registry.proxyReq]
    cases hp : proxy req (L ++ [offlineRegistry]) with
    | mk r e => cases e <;> simp
  · intro err readList
    simp [registry.proxyReq]
